import Mathlib

/-!
Shallow embedding of the three sketch variants of the repository
Individual-Scream-Animation: a mask-driven variant and a color-heuristic
variant (both in src/sketch.js), and a second color-heuristic variant
embedded in src/README.md (bouncing intro screen, volume fade-in,
restart on click, extreme-multiplier-scaled motion, three-subrange color
shift). External p5.js facilities (trigonometry, random, atan2, canvas
size) are modelled as an abstract environment; all arithmetic is over the
rationals, matching the exact linear arithmetic of the JavaScript source
(p5 map, constrain, lerp).
-/

namespace Scream

/-- p5.js map(value, start1, stop1, start2, stop2): pure linear rescale,
no clamping (the withinBounds flag defaults to false in p5). -/
def p5map (v a b c d : ℚ) : ℚ := c + (d - c) * ((v - a) / (b - a))

/-- p5.js constrain(n, low, high) = max(min(n, high), low). -/
def constrain (n lo hi : ℚ) : ℚ := max (min n hi) lo

/-- p5.js lerp(start, stop, amt) = start + (stop - start) * amt. -/
def lerp (a b t : ℚ) : ℚ := a + (b - a) * t

/-- A sampled pixel color: the 4-entry array returned by p5 image.get. -/
structure Color where
  r : ℚ
  g : ℚ
  b : ℚ
  a : ℚ
deriving DecidableEq

/-- The external p5 facilities the sketches call: trigonometry, atan2,
the random source, and the canvas / overlay-image dimensions. -/
structure Env where
  sinf : ℚ → ℚ
  cosf : ℚ → ℚ
  atan2f : ℚ → ℚ → ℚ
  rnd : ℚ → ℚ → ℚ
  width : ℚ
  height : ℚ
  guyW : ℚ
  guyH : ℚ

/-- Audio readings pulled from the analyzer in one frame:
amp.getLevel() and fft.getEnergy for bass / mid / treble. -/
structure AudioIn where
  level : ℚ
  bass : ℚ
  mid : ℚ
  treble : ℚ

/-- `let energy = map(level, 0, 0.2, 0.8, 4.0); energy = constrain(energy, 0.8, 4.0)`
(identical in both variants). -/
def energyOf (level : ℚ) : ℚ := constrain (p5map level 0 0.2 0.8 4.0) 0.8 4.0

/-- `map(band, 0, 255, 0, 1)`: band energy normalised to [0,1]. -/
def bandAmount (v : ℚ) : ℚ := p5map v 0 255 0 1

/-- `timeOffset += 0.05 + bassAmount * 0.1` (identical in both variants). -/
def timeStep (t bassAmount : ℚ) : ℚ := t + (0.05 + bassAmount * 0.1)

/-! ## Variant 2 (color-heuristic sketch): region classification -/

/-- The closed set of labels getColorType can return. -/
inductive ColorType where
  | warm
  | blue
  | dark
  | earth
  | bright
  | neutral
deriving DecidableEq

/-- getColorType(c): threshold tests on r,g,b and average brightness,
first matching rule wins, neutral as the fall-through default. -/
def getColorType (c : Color) : ColorType :=
  let r := c.r
  let g := c.g
  let b := c.b
  let brightness := (r + g + b) / 3
  if r > 150 ∧ g > 80 ∧ g < 180 ∧ b < 120 then .warm
  else if b > g ∧ b > r then .blue
  else if brightness < 80 then .dark
  else if r > 80 ∧ g > 60 ∧ b > 40 ∧ r > b then .earth
  else if brightness > 180 then .bright
  else .neutral

/-- A dot of the color-heuristic sketch: position, sampled color, region
label, and the smoothed dispersion state mutated once per frame. -/
structure Dot2 where
  x : ℚ
  y : ℚ
  c : Color
  colorType : ColorType
  currentDispersionX : ℚ
  currentDispersionY : ℚ
deriving DecidableEq

/-- The treble-driven color shift at the top of the heuristic drawDot:
above treble 0.15, lerp the channels toward a warm target; the target
green/blue switch from (140,50) to (0,0) once colorShift passes 0.47. -/
def adjustColor (r g b treble : ℚ) : ℚ × ℚ × ℚ :=
  if treble > 0.15 then
    let colorShift := constrain (p5map treble 0.15 1.0 0 1) 0 1
    let targetR : ℚ := 255
    let targetG : ℚ := if colorShift > 0.47 then 0 else 140
    let targetB : ℚ := if colorShift > 0.47 then 0 else 50
    (lerp r targetR colorShift, lerp g targetG colorShift, lerp b targetB colorShift)
  else (r, g, b)

/-- Everything one heuristic-variant drawDot call produces: the updated
dispersion state it writes back into the dot, and the ellipse it draws. -/
structure DotRes where
  newDX : ℚ
  newDY : ℚ
  finalX : ℚ
  finalY : ℚ
  size : ℚ
  fillR : ℚ
  fillG : ℚ
  fillB : ℚ
deriving DecidableEq

/-- drawDot of the color-heuristic sketch: treble color shift, random
dispersion target eased by lerp(·,·,0.1), then a per-region displacement
formula selected by the dot's colorType. -/
def drawDot2 (env : Env) (p : Dot2)
    (energy bassAmount midAmount trebleAmount timeOffset extremeMultiplier : ℚ) :
    DotRes :=
  let baseSize := p5map ((p.c.r + p.c.g + p.c.b) / 3) 0 255 2 5
  let rgb := adjustColor p.c.r p.c.g p.c.b trebleAmount
  let dispersionAmount := p5map extremeMultiplier 1.0 2.5 0 150
  let targetDispersionX := env.rnd (-dispersionAmount) dispersionAmount
  let targetDispersionY := env.rnd (-dispersionAmount) dispersionAmount
  let newDX := lerp p.currentDispersionX targetDispersionX 0.1
  let newDY := lerp p.currentDispersionY targetDispersionY 0.1
  let dispersionX := newDX
  let dispersionY := newDY
  match p.colorType with
  | .warm =>
      let spiralX := env.sinf (p.y * 0.02 + timeOffset * 1.5) * trebleAmount * 20
      let spiralY := env.cosf (p.x * 0.015 + timeOffset) * trebleAmount * 15 - bassAmount * 10
      { newDX := newDX, newDY := newDY
        finalX := p.x + spiralX + dispersionX
        finalY := p.y + spiralY + dispersionY
        size := baseSize * (1 + trebleAmount)
        fillR := rgb.1, fillG := rgb.2.1, fillB := rgb.2.2 }
  | .blue =>
      let waveX := env.sinf (p.y * 0.03 + timeOffset * 2) * midAmount * 25
      let waveY := env.cosf (p.x * 0.02 + timeOffset * 1.5) * midAmount * 12
      { newDX := newDX, newDY := newDY
        finalX := p.x + waveX + dispersionX
        finalY := p.y + waveY + dispersionY
        size := baseSize * (1 + midAmount)
        fillR := rgb.1, fillG := rgb.2.1, fillB := rgb.2.2 }
  | .dark =>
      let distortX := env.sinf (p.y * 0.04 + timeOffset * 2) * bassAmount * 15
      let distortY := env.cosf (p.x * 0.04 + timeOffset * 2) * bassAmount * 15
      { newDX := newDX, newDY := newDY
        finalX := p.x + distortX + dispersionX
        finalY := p.y + distortY + dispersionY
        size := baseSize * (1 + bassAmount * 1.3)
        fillR := rgb.1, fillG := rgb.2.1, fillB := rgb.2.2 }
  | .earth =>
      let rollX := env.sinf (p.y * 0.015 + timeOffset) * bassAmount * 18
      let rollY := env.cosf (p.x * 0.01 + timeOffset * 0.8) * bassAmount * 10
      { newDX := newDX, newDY := newDY
        finalX := p.x + rollX + dispersionX
        finalY := p.y + rollY + dispersionY
        size := baseSize * (1 + bassAmount * 0.6)
        fillR := rgb.1, fillG := rgb.2.1, fillB := rgb.2.2 }
  | .bright =>
      let centerX := env.width / 2
      let centerY := env.height / 2
      let angle := env.atan2f (p.y - centerY) (p.x - centerX)
      { newDX := newDX, newDY := newDY
        finalX := p.x + env.cosf angle * trebleAmount * 12 + dispersionX
        finalY := p.y + env.sinf angle * trebleAmount * 12 + dispersionY
        size := baseSize * (1 + trebleAmount * 0.8)
        fillR := rgb.1, fillG := rgb.2.1, fillB := rgb.2.2 }
  | .neutral =>
      { newDX := newDX, newDY := newDY
        finalX := p.x + env.sinf (timeOffset * 2 + p.x * 0.03) * energy * 4 + dispersionX
        finalY := p.y + env.cosf (timeOffset * 2 + p.y * 0.03) * energy * 3 + dispersionY
        size := baseSize * (1 + energy * 0.3)
        fillR := rgb.1, fillG := rgb.2.1, fillB := rgb.2.2 }

/-! ## Variant 1 (mask-driven sketch): region classification and drawDot -/

/-- The closed set of labels getAreaType can return. -/
inductive Area where
  | guy
  | bridge
  | sky
  | water
  | hills
deriving DecidableEq

/-- The five region-mask images, each modelled as a pixel lookup. -/
structure Masks where
  guyMask : ℤ → ℤ → Color
  bridgeMask : ℤ → ℤ → Color
  skyMask : ℤ → ℤ → Color
  waterMask : ℤ → ℤ → Color
  hillsMask : ℤ → ℤ → Color

/-- Average of the first three channels of a mask sample:
`(m.get(x,y)[0] + m.get(x,y)[1] + m.get(x,y)[2]) / 3`. -/
def maskBright (m : ℤ → ℤ → Color) (x y : ℤ) : ℚ :=
  ((m x y).r + (m x y).g + (m x y).b) / 3

/-- getAreaType(x, y): per-mask brightness thresholds tried in a fixed
priority order (guy, bridge, sky, water, hills); hills is also the
fall-through default when no threshold matches. -/
def getAreaType (M : Masks) (x y : ℤ) : Area :=
  if maskBright M.guyMask x y > 100 then .guy
  else if maskBright M.bridgeMask x y > 20 then .bridge
  else if maskBright M.skyMask x y > 120 then .sky
  else if maskBright M.waterMask x y > 80 then .water
  else if maskBright M.hillsMask x y > 100 then .hills
  else .hills

/-- A dot of the mask-driven sketch: position, sampled color and region
label; this variant carries no per-dot mutable animation state. -/
structure Dot1 where
  x : ℚ
  y : ℚ
  c : Color
  area : Area
deriving DecidableEq

/-- One drawn ellipse of the mask-driven sketch. -/
structure Drawn1 where
  finalX : ℚ
  finalY : ℚ
  size : ℚ
  fillR : ℚ
  fillG : ℚ
  fillB : ℚ
deriving DecidableEq

/-- drawDot of the mask-driven sketch: one displacement/size formula per
region; the dot is drawn with its original color. -/
def drawDot1 (env : Env) (p : Dot1)
    (energy bassAmount midAmount trebleAmount timeOffset : ℚ) : Drawn1 :=
  let baseSize := p5map ((p.c.r + p.c.g + p.c.b) / 3) 0 255 2 5
  match p.area with
  | .sky =>
      let spiralX := env.sinf (p.y * 0.02 + timeOffset * 1.5) * trebleAmount * 20
      let spiralY := env.cosf (p.x * 0.015 + timeOffset) * trebleAmount * 15 - bassAmount * 10
      { finalX := p.x + spiralX + env.rnd (-energy) energy * 0.3
        finalY := p.y + spiralY + env.rnd (-energy) energy * 0.3
        size := baseSize * (1 + energy * 0.3) * (1 + trebleAmount * 0.7)
        fillR := p.c.r, fillG := p.c.g, fillB := p.c.b }
  | .water =>
      let waveX := env.sinf (p.y * 0.03 + timeOffset * 2) * midAmount * 25
      let waveY := env.cosf (p.x * 0.02 + timeOffset * 1.5) * midAmount * 12 + bassAmount * 8
      { finalX := p.x + waveX
        finalY := p.y + waveY
        size := baseSize * (1 + energy * 0.3) * (1 + midAmount * 0.8)
        fillR := p.c.r, fillG := p.c.g, fillB := p.c.b }
  | .hills =>
      let rollX := env.sinf (p.y * 0.015 + timeOffset) * bassAmount * 18
      let rollY := env.cosf (p.x * 0.01 + timeOffset * 0.8) * bassAmount * 10
      { finalX := p.x + rollX
        finalY := p.y + rollY
        size := baseSize * (1 + energy * 0.3) * (1 + bassAmount * 0.6)
        fillR := p.c.r, fillG := p.c.g, fillB := p.c.b }
  | .bridge =>
      let vibrateX := env.sinf (timeOffset * 3 + p.x * 0.05) * energy * 3
      let vibrateY := env.cosf (timeOffset * 2.5 + p.y * 0.05) * energy * 2
      { finalX := p.x + vibrateX
        finalY := p.y + vibrateY
        size := baseSize * (1 + energy * 0.3)
          * (1 + (bassAmount + midAmount + trebleAmount) * 0.3)
        fillR := p.c.r, fillG := p.c.g, fillB := p.c.b }
  | .guy =>
      let distortX := env.sinf (p.y * 0.04 + timeOffset * 2) * bassAmount * 12
      let distortY := env.cosf (p.x * 0.04 + timeOffset * 2) * bassAmount * 12
      let pulseX := env.sinf (timeOffset * 3) * trebleAmount * 8
      let pulseY := env.cosf (timeOffset * 3) * trebleAmount * 8
      let guySize := p5map ((p.c.r + p.c.g + p.c.b) / 3) 0 255 2.5 6
      { finalX := p.x + distortX + pulseX
        finalY := p.y + distortY + pulseY
        size := guySize * (1 + energy * 0.4) * (1 + bassAmount * 1.2 + trebleAmount * 0.5)
        fillR := p.c.r, fillG := p.c.g, fillB := p.c.b }

/-! ## Point field builder (setup loops of the mask-driven sketch) -/

/-- The x (or y) values visited by `for (let x = 0; x < w; x += s)`. -/
def gridFrom (w s x : ℕ) : List ℕ :=
  if _h : 0 < s ∧ x < w then x :: gridFrom w s (x + s) else []
termination_by w - x
decreasing_by omega

/-- One cell of the setup loop of the mask-driven sketch: jitter the grid
coordinate, constrain it into the canvas, sample the base image at the
truncated coordinate, classify it via the masks. -/
def mkFieldDot (env : Env) (M : Masks) (img : ℤ → ℤ → Color)
    (W H s x y : ℕ) : Dot1 :=
  let px := constrain ((x : ℚ) + env.rnd (-(s : ℚ) / 3) ((s : ℚ) / 3)) 0 ((W : ℚ) - 1)
  let py := constrain ((y : ℚ) + env.rnd (-(s : ℚ) / 3) ((s : ℚ) / 3)) 0 ((H : ℚ) - 1)
  { x := px, y := py
    c := img ⌊px⌋ ⌊py⌋
    area := getAreaType M ⌊px⌋ ⌊py⌋ }

/-- The whole setup double loop: one dot pushed per visited grid cell,
with no visibility filter. -/
def buildDots (env : Env) (M : Masks) (img : ℤ → ℤ → Color)
    (W H s : ℕ) : List Dot1 :=
  (gridFrom W s 0).flatMap fun x =>
    (gridFrom H s 0).map fun y => mkFieldDot env M img W H s x y

/-! ## Frame drivers -/

/-- Global state of the mask-driven sketch. -/
structure State1 where
  audioStarted : Bool
  timeOffset : ℚ
  allDots : List Dot1
  songPlaying : Bool
deriving DecidableEq

/-- What one mask-variant draw call renders. -/
inductive Render1 where
  | prompt (msg : String)
  | dots (ds : List Drawn1)
deriving DecidableEq

/-- Result of one mask-variant draw call: the state it leaves behind, how
many analyzer queries it issued (getLevel, analyze, three getEnergy), and
what it rendered. -/
structure DrawOut1 where
  state : State1
  audioCalls : ℕ
  render : Render1
deriving DecidableEq

/-- draw() of the mask-driven sketch: short-circuit to the static prompt
while audio has not started; otherwise query the analyzer, derive energy
and band amounts, advance timeOffset, and draw every dot. -/
def draw1 (env : Env) (audio : AudioIn) (s : State1) : DrawOut1 :=
  if s.audioStarted = false then
    { state := s, audioCalls := 0, render := .prompt "Click to start the sound" }
  else
    let energy := energyOf audio.level
    let bassAmount := bandAmount audio.bass
    let midAmount := bandAmount audio.mid
    let trebleAmount := bandAmount audio.treble
    let t := timeStep s.timeOffset bassAmount
    { state := { s with timeOffset := t }
      audioCalls := 5
      render := .dots (s.allDots.map fun p =>
        drawDot1 env p energy bassAmount midAmount trebleAmount t) }

/-- mousePressed() of the mask-driven sketch: starts the looped song once;
does nothing after audio has started. -/
def mousePressed1 (s : State1) : State1 :=
  if s.audioStarted = false then
    { s with songPlaying := true, audioStarted := true }
  else s

/-- The operations that can touch the mask-driven sketch's state. -/
inductive Op1 where
  | frame (env : Env) (audio : AudioIn)
  | mouse

/-- Apply one operation to the mask-variant state. -/
def applyOp1 (op : Op1) (s : State1) : State1 :=
  match op with
  | .frame env audio => (draw1 env audio s).state
  | .mouse => mousePressed1 s

/-- Apply a sequence of operations left to right. -/
def applyOps1 (ops : List Op1) (s : State1) : State1 :=
  ops.foldl (fun st op => applyOp1 op st) s

/-- `totalEnergy = (bassAmount + midAmount + trebleAmount) / 3` followed by
`isHighEnergy ? map(totalEnergy, 0.7, 1.0, 1.0, 2.5) : 1.0`, as a function
of the mean. -/
def extremeMultiplierOfMean (m : ℚ) : ℚ :=
  if m > 0.7 then p5map m 0.7 1.0 1.0 2.5 else 1.0

/-- The extreme multiplier exactly as the heuristic-variant draw derives it
from the three raw band energies. -/
def extremeMultiplier (bass mid treble : ℚ) : ℚ :=
  extremeMultiplierOfMean ((bandAmount bass + bandAmount mid + bandAmount treble) / 3)

/-! ## Heuristic-variant frame driver and overlay figure -/

/-- Per-dot update of the background field in the heuristic draw loop:
drawDot mutates the dot's dispersion state in place. -/
def fieldDotStep (env : Env)
    (energy bassAmount midAmount trebleAmount timeOffset em : ℚ) (p : Dot2) : Dot2 :=
  let res := drawDot2 env p energy bassAmount midAmount trebleAmount timeOffset em
  { p with currentDispersionX := res.newDX, currentDispersionY := res.newDY }

/-- `scaleAmount = baseScale + audioScale + pulse` of drawGuyOverlay. -/
def overlayScaleAmount (env : Env) (energy bassAmount midAmount trebleAmount timeOffset : ℚ) : ℚ :=
  0.3 + (bassAmount * 0.2 + midAmount * 0.12 + trebleAmount * 0.08)
    + env.sinf (timeOffset * 2) * 0.03 * energy

/-- `rotation = sin(timeOffset) * bassAmount * 0.05` of drawGuyOverlay. -/
def overlayRotation (env : Env) (bassAmount timeOffset : ℚ) : ℚ :=
  env.sinf timeOffset * bassAmount * 0.05

/-- The treble-gated dissolve amount of drawGuyOverlay. -/
def overlayDissolve (trebleAmount : ℚ) : ℚ :=
  if trebleAmount > 0.55 then constrain (p5map trebleAmount 0.55 1.0 0 1) 0 1 else 0

/-- The multiplier drawGuyOverlay passes to drawDot:
`dissolveAmount > 0 ? map(dissolveAmount, 0, 1, 1.0, 2.5) : 1.0`. -/
def overlayMultiplier (trebleAmount : ℚ) : ℚ :=
  let d := overlayDissolve trebleAmount
  if d > 0 then p5map d 0 1 1.0 2.5 else 1.0

/-- The temporary scaled/rotated copy of a guy dot built inside the
overlay loop; dispersion state is copied from the stored dot. -/
def overlayTransformDot (env : Env) (scaleAmount rotation : ℚ) (p : Dot2) : Dot2 :=
  let offsetX := (p.x - env.guyW / 2) * scaleAmount
  let offsetY := (p.y - env.guyH / 2) * scaleAmount
  let rotatedX := offsetX * env.cosf rotation - offsetY * env.sinf rotation
  let rotatedY := offsetX * env.sinf rotation + offsetY * env.cosf rotation
  { x := env.width / 2 + rotatedX
    y := env.height / 2 + rotatedY
    c := p.c
    colorType := p.colorType
    currentDispersionX := p.currentDispersionX
    currentDispersionY := p.currentDispersionY }

/-- What one overlay-loop iteration writes back into the stored guy dot:
only the dispersion fields, taken from drawDot's update of the temporary
transformed copy. -/
def overlayDotStep (env : Env)
    (energy bassAmount midAmount trebleAmount timeOffset : ℚ) (p : Dot2) : Dot2 :=
  let scaleAmount := overlayScaleAmount env energy bassAmount midAmount trebleAmount timeOffset
  let rotation := overlayRotation env bassAmount timeOffset
  let transformedDot := overlayTransformDot env scaleAmount rotation p
  let res := drawDot2 env transformedDot energy bassAmount midAmount trebleAmount timeOffset
    (overlayMultiplier trebleAmount)
  { p with currentDispersionX := res.newDX, currentDispersionY := res.newDY }

/-- drawGuyOverlay: updates every guy dot's dispersion state and produces
one drawDot result (ellipse plus dispersion write) per dot. -/
def drawGuyOverlay (env : Env)
    (energy bassAmount midAmount trebleAmount timeOffset : ℚ)
    (dots : List Dot2) : List Dot2 × List DotRes :=
  (dots.map (overlayDotStep env energy bassAmount midAmount trebleAmount timeOffset),
   dots.map fun p =>
     drawDot2 env
       (overlayTransformDot env
         (overlayScaleAmount env energy bassAmount midAmount trebleAmount timeOffset)
         (overlayRotation env bassAmount timeOffset) p)
       energy bassAmount midAmount trebleAmount timeOffset
       (overlayMultiplier trebleAmount))

/-- Global state of the color-heuristic sketch. -/
structure State2 where
  audioStarted : Bool
  timeOffset : ℚ
  allDots : List Dot2
  guyDots : List Dot2
  songPlaying : Bool
  songVolume : ℚ

/-- What one heuristic-variant draw call renders. -/
inductive Render2 where
  | prompt (msg : String)
  | dots (field : List DotRes) (overlay : List DotRes)

/-- Result of one heuristic-variant draw call. -/
structure DrawOut2 where
  state : State2
  audioCalls : ℕ
  render : Render2

/-- draw() of the color-heuristic sketch: static prompt while idle;
otherwise query the analyzer, derive energy, band amounts and the extreme
multiplier, advance timeOffset, update and draw the field, then the
overlay figure. -/
def draw2 (env : Env) (audio : AudioIn) (s : State2) : DrawOut2 :=
  if s.audioStarted = false then
    { state := s, audioCalls := 0, render := .prompt "Click to start the experience" }
  else
    let energy := energyOf audio.level
    let bassAmount := bandAmount audio.bass
    let midAmount := bandAmount audio.mid
    let trebleAmount := bandAmount audio.treble
    let em := extremeMultiplier audio.bass audio.mid audio.treble
    let t := timeStep s.timeOffset bassAmount
    let fieldRes := s.allDots.map fun p =>
      drawDot2 env p energy bassAmount midAmount trebleAmount t em
    let allDots := s.allDots.map (fieldDotStep env energy bassAmount midAmount trebleAmount t em)
    let guy := drawGuyOverlay env energy bassAmount midAmount trebleAmount t s.guyDots
    { state := { s with timeOffset := t, allDots := allDots, guyDots := guy.1 }
      audioCalls := 5
      render := .dots fieldRes guy.2 }

/-- mousePressed() of the heuristic sketch: first click starts the looped
song at full volume; later clicks toggle pause/loop. -/
def mousePressed2 (s : State2) : State2 :=
  if s.audioStarted = false then
    { s with songPlaying := true, songVolume := 1.0, audioStarted := true }
  else
    { s with songPlaying := !s.songPlaying }

/-- keyPressed() of the heuristic sketch: spacebar restarts the track if
paused (and sets audioStarted). -/
def keyPressed2 (key : Char) (s : State2) : State2 :=
  if key = ' ' then
    if s.songPlaying = false then
      { s with songPlaying := true, songVolume := 1.0, audioStarted := true }
    else s
  else s

/-! ## Variant 3 (README sketch): color-heuristic renderer with intro
screen, volume fade-in and extreme-multiplier-scaled motion. Its
getColorType, the setup loops, drawGuyOverlay's write-back discipline and
the analyzer post-processing are verbatim those of variant 2; drawDot and
the frame driver differ. -/

/-- `let targetVolume = 1.0` of the README variant. -/
def targetVolume : ℚ := 1.0

/-- `let fadeSpeed = 0.01` of the README variant. -/
def fadeSpeed : ℚ := 0.01

/-- `colorShift = constrain(map(trebleAmount, 0.15, 1.0, 0, 1), 0, 1)`,
shared shape of both heuristic color shifts. -/
def colorShiftOf (trebleAmount : ℚ) : ℚ :=
  constrain (p5map trebleAmount 0.15 1.0 0 1) 0 1

/-- The README variant's interpolation target for the green channel:
three sub-ranges of colorShift (below 0.235, 0.235 to 0.47, above),
each piece linear. -/
def target3G (colorShift : ℚ) : ℚ :=
  if colorShift < 0.235 then 140
  else if colorShift < 0.47 then lerp 140 80 (p5map colorShift 0.235 0.47 0 1)
  else lerp 80 0 (p5map colorShift 0.47 1.0 0 1)

/-- The README variant's interpolation target for the blue channel. -/
def target3B (colorShift : ℚ) : ℚ :=
  if colorShift < 0.235 then 50
  else if colorShift < 0.47 then lerp 50 10 (p5map colorShift 0.235 0.47 0 1)
  else lerp 10 0 (p5map colorShift 0.47 1.0 0 1)

/-- The README variant's treble-driven color shift: the target red is
always 255; target green/blue follow the three-subrange piecewise-linear
tables target3G / target3B. -/
def adjustColor3 (r g b treble : ℚ) : ℚ × ℚ × ℚ :=
  if treble > 0.15 then
    let colorShift := colorShiftOf treble
    (lerp r 255 colorShift,
     lerp g (target3G colorShift) colorShift,
     lerp b (target3B colorShift) colorShift)
  else (r, g, b)

/-- drawDot of the README variant: three-subrange color shift, the same
eased random dispersion, and per-region displacement formulas scaled by
the extreme multiplier; its 'dark' branch adds a treble pulse term. -/
def drawDot3 (env : Env) (p : Dot2)
    (energy bassAmount midAmount trebleAmount timeOffset extremeMultiplier : ℚ) :
    DotRes :=
  let baseSize := p5map ((p.c.r + p.c.g + p.c.b) / 3) 0 255 2 5
  let rgb := adjustColor3 p.c.r p.c.g p.c.b trebleAmount
  let dispersionAmount := p5map extremeMultiplier 1.0 2.5 0 150
  let targetDispersionX := env.rnd (-dispersionAmount) dispersionAmount
  let targetDispersionY := env.rnd (-dispersionAmount) dispersionAmount
  let newDX := lerp p.currentDispersionX targetDispersionX 0.1
  let newDY := lerp p.currentDispersionY targetDispersionY 0.1
  let dispersionX := newDX
  let dispersionY := newDY
  match p.colorType with
  | .warm =>
      let spiralX := env.sinf (p.y * 0.02 + timeOffset * 1.5) * trebleAmount * 20
        * extremeMultiplier
      let spiralY := env.cosf (p.x * 0.015 + timeOffset) * trebleAmount * 15
        * extremeMultiplier - bassAmount * 10
      { newDX := newDX, newDY := newDY
        finalX := p.x + spiralX + env.rnd (-energy) energy * 0.3 * extremeMultiplier
          + dispersionX
        finalY := p.y + spiralY + env.rnd (-energy) energy * 0.3 * extremeMultiplier
          + dispersionY
        size := baseSize * (1 + energy * 0.3) * (1 + trebleAmount * 0.7) * extremeMultiplier
        fillR := rgb.1, fillG := rgb.2.1, fillB := rgb.2.2 }
  | .blue =>
      let waveX := env.sinf (p.y * 0.03 + timeOffset * 2) * midAmount * 25 * extremeMultiplier
      let waveY := env.cosf (p.x * 0.02 + timeOffset * 1.5) * midAmount * 12
        * extremeMultiplier + bassAmount * 8
      { newDX := newDX, newDY := newDY
        finalX := p.x + waveX + dispersionX
        finalY := p.y + waveY + dispersionY
        size := baseSize * (1 + energy * 0.3) * (1 + midAmount * 0.8) * extremeMultiplier
        fillR := rgb.1, fillG := rgb.2.1, fillB := rgb.2.2 }
  | .dark =>
      let distortX := env.sinf (p.y * 0.04 + timeOffset * 2) * bassAmount * 15
        * extremeMultiplier
      let distortY := env.cosf (p.x * 0.04 + timeOffset * 2) * bassAmount * 15
        * extremeMultiplier
      let pulseX := env.sinf (timeOffset * 3) * trebleAmount * 10 * extremeMultiplier
      let pulseY := env.cosf (timeOffset * 3) * trebleAmount * 10 * extremeMultiplier
      { newDX := newDX, newDY := newDY
        finalX := p.x + distortX + pulseX + dispersionX
        finalY := p.y + distortY + pulseY + dispersionY
        size := p5map ((p.c.r + p.c.g + p.c.b) / 3) 0 255 2.5 6
          * ((1 + energy * 0.5) * (1 + bassAmount * 1.3 + trebleAmount * 0.6)
            * extremeMultiplier)
        fillR := rgb.1, fillG := rgb.2.1, fillB := rgb.2.2 }
  | .earth =>
      let rollX := env.sinf (p.y * 0.015 + timeOffset) * bassAmount * 18 * extremeMultiplier
      let rollY := env.cosf (p.x * 0.01 + timeOffset * 0.8) * bassAmount * 10
        * extremeMultiplier
      { newDX := newDX, newDY := newDY
        finalX := p.x + rollX + dispersionX
        finalY := p.y + rollY + dispersionY
        size := baseSize * (1 + energy * 0.3) * (1 + bassAmount * 0.6) * extremeMultiplier
        fillR := rgb.1, fillG := rgb.2.1, fillB := rgb.2.2 }
  | .bright =>
      let centerX := env.width / 2
      let centerY := env.height / 2
      let angle := env.atan2f (p.y - centerY) (p.x - centerX)
      let pushX := env.cosf angle * trebleAmount * 12 * extremeMultiplier
      let pushY := env.sinf angle * trebleAmount * 12 * extremeMultiplier
      { newDX := newDX, newDY := newDY
        finalX := p.x + pushX + env.sinf (timeOffset * 2) * midAmount * 5
          * extremeMultiplier + dispersionX
        finalY := p.y + pushY + env.cosf (timeOffset * 2) * midAmount * 5
          * extremeMultiplier + dispersionY
        size := baseSize * (1 + energy * 0.3) * (1 + trebleAmount * 1.0) * extremeMultiplier
        fillR := rgb.1, fillG := rgb.2.1, fillB := rgb.2.2 }
  | .neutral =>
      let offsetX := env.sinf (p.y * 0.01 + timeOffset) * midAmount * 10 * extremeMultiplier
      let offsetY := env.cosf (p.x * 0.01 + timeOffset) * bassAmount * 8 * extremeMultiplier
      { newDX := newDX, newDY := newDY
        finalX := p.x + offsetX + dispersionX
        finalY := p.y + offsetY + dispersionY
        size := baseSize * (1 + energy * 0.25) * extremeMultiplier
        fillR := rgb.1, fillG := rgb.2.1, fillB := rgb.2.2 }

/-- The intro-screen bounce state of the README variant: face position
and velocity. -/
structure FaceState where
  fx : ℚ
  fy : ℚ
  vx : ℚ
  vy : ℚ
deriving DecidableEq

/-- One idle tick of the README intro screen, on the scaled face size:
advance the face by its velocity, then bounce off the horizontal edges
and off the vertical edges (leaving 50 pixels of room for the text). -/
def introStep (width height faceW faceH : ℚ) (f : FaceState) : FaceState :=
  let fx := f.fx + f.vx
  let fy := f.fy + f.vy
  let bounceX := fx - faceW / 2 ≤ 0 ∨ fx + faceW / 2 ≥ width
  let vx := if bounceX then -f.vx else f.vx
  let fx := if bounceX then constrain fx (faceW / 2) (width - faceW / 2) else fx
  let bounceY := fy - faceH / 2 ≤ 0 ∨ fy + faceH / 2 + 50 ≥ height
  let vy := if bounceY then -f.vy else f.vy
  let fy := if bounceY then constrain fy (faceH / 2) (height - faceH / 2 - 50) else fy
  { fx := fx, fy := fy, vx := vx, vy := vy }

/-- Global state of the README sketch. -/
structure State3 where
  audioStarted : Bool
  timeOffset : ℚ
  allDots : List Dot2
  guyDots : List Dot2
  currentVolume : ℚ
  songPlaying : Bool
  songVolume : ℚ
  face : FaceState
deriving DecidableEq

/-- What one README-variant draw call renders: the moving intro screen
(face image position/size and the prompt position below it), or the dot
field plus overlay. -/
inductive Render3 where
  | intro (faceX faceY faceW faceH promptX promptY : ℚ) (msg : String)
  | dots (field : List DotRes) (overlay : List DotRes)
deriving DecidableEq

/-- Result of one README-variant draw call. -/
structure DrawOut3 where
  state : State3
  audioCalls : ℕ
  render : Render3
deriving DecidableEq

/-- Per-dot background update of the README draw loop. -/
def fieldDotStep3 (env : Env)
    (energy bassAmount midAmount trebleAmount timeOffset em : ℚ) (p : Dot2) : Dot2 :=
  let res := drawDot3 env p energy bassAmount midAmount trebleAmount timeOffset em
  { p with currentDispersionX := res.newDX, currentDispersionY := res.newDY }

/-- Per-dot overlay write-back of the README drawGuyOverlay (same
discipline as variant 2, drawing with drawDot3). -/
def overlayDotStep3 (env : Env)
    (energy bassAmount midAmount trebleAmount timeOffset : ℚ) (p : Dot2) : Dot2 :=
  let scaleAmount := overlayScaleAmount env energy bassAmount midAmount trebleAmount timeOffset
  let rotation := overlayRotation env bassAmount timeOffset
  let transformedDot := overlayTransformDot env scaleAmount rotation p
  let res := drawDot3 env transformedDot energy bassAmount midAmount trebleAmount timeOffset
    (overlayMultiplier trebleAmount)
  { p with currentDispersionX := res.newDX, currentDispersionY := res.newDY }

/-- drawGuyOverlay of the README variant. -/
def drawGuyOverlay3 (env : Env)
    (energy bassAmount midAmount trebleAmount timeOffset : ℚ)
    (dots : List Dot2) : List Dot2 × List DotRes :=
  (dots.map (overlayDotStep3 env energy bassAmount midAmount trebleAmount timeOffset),
   dots.map fun p =>
     drawDot3 env
       (overlayTransformDot env
         (overlayScaleAmount env energy bassAmount midAmount trebleAmount timeOffset)
         (overlayRotation env bassAmount timeOffset) p)
       energy bassAmount midAmount trebleAmount timeOffset
       (overlayMultiplier trebleAmount))

/-- draw() of the README sketch. While idle it runs the bouncing intro
screen (which mutates the face position/velocity every tick and renders
the prompt at the moving face) and returns before any analyzer call.
While active it ramps the fade-in volume, queries the analyzer, derives
energy, band amounts and the extreme multiplier, advances timeOffset and
draws field and overlay. faceImgW/faceImgH are the intro image's pixel
dimensions (scaled by 0.5 in the loop, as in the source). -/
def draw3 (env : Env) (faceImgW faceImgH : ℚ) (audio : AudioIn) (s : State3) : DrawOut3 :=
  if s.audioStarted = false then
    let faceW := faceImgW * 0.5
    let faceH := faceImgH * 0.5
    let f := introStep env.width env.height faceW faceH s.face
    { state := { s with face := f }
      audioCalls := 0
      render := .intro f.fx f.fy faceW faceH f.fx (f.fy + faceH / 2 + 30) "click here" }
  else
    let fading := s.currentVolume < targetVolume
    let currentVolume :=
      if fading then constrain (s.currentVolume + fadeSpeed) 0 targetVolume
      else s.currentVolume
    let songVolume := if fading then currentVolume else s.songVolume
    let energy := energyOf audio.level
    let bassAmount := bandAmount audio.bass
    let midAmount := bandAmount audio.mid
    let trebleAmount := bandAmount audio.treble
    let em := extremeMultiplier audio.bass audio.mid audio.treble
    let t := timeStep s.timeOffset bassAmount
    let fieldRes := s.allDots.map fun p =>
      drawDot3 env p energy bassAmount midAmount trebleAmount t em
    let allDots := s.allDots.map (fieldDotStep3 env energy bassAmount midAmount trebleAmount t em)
    let guy := drawGuyOverlay3 env energy bassAmount midAmount trebleAmount t s.guyDots
    { state := { s with
        timeOffset := t
        allDots := allDots
        guyDots := guy.1
        currentVolume := currentVolume
        songVolume := songVolume }
      audioCalls := 5
      render := .dots fieldRes guy.2 }

/-- mousePressed() of the README sketch: first click starts the looped
song at volume 0 (fade-in takes over); if the song is paused another
click restarts the loop; otherwise a click resets the animation back to
the intro (audioStarted false, song stopped, volume 0). -/
def mousePressed3 (s : State3) : State3 :=
  if s.audioStarted = false then
    { s with audioStarted := true, songPlaying := true, songVolume := 0 }
  else if s.songPlaying = false then
    { s with songPlaying := true }
  else
    { s with audioStarted := false, songPlaying := false, currentVolume := 0 }

/-! ## Theorems -/

/-- Claim C5: for every loudness level, the mapped energy (linear map of
the level from [0, 0.2] to [0.8, 4.0], then clamped) lies in [0.8, 4.0],
is monotone non-decreasing in the level, equals 0.8 at level 0, and equals
exactly 4.0 for every level at or above 0.2. -/
theorem claim_C5_energy_mapping (level : ℚ) :
    0.8 ≤ energyOf level ∧ energyOf level ≤ 4.0 ∧
    (∀ l₁ l₂ : ℚ, l₁ ≤ l₂ → energyOf l₁ ≤ energyOf l₂) ∧
    energyOf 0 = 0.8 ∧
    (0.2 ≤ level → energyOf level = 4.0) := by
  refine ⟨le_max_right _ _, max_le (min_le_right _ _) (by norm_num), ?_, ?_, ?_⟩
  · intro l₁ l₂ h
    unfold energyOf constrain
    refine max_le_max (min_le_min ?_ le_rfl) le_rfl
    unfold p5map
    ring_nf
    linarith
  · norm_num [energyOf, constrain, p5map]
  · intro h
    unfold energyOf constrain
    have h4 : (4.0 : ℚ) ≤ p5map level 0 0.2 0.8 4.0 := by
      unfold p5map
      ring_nf
      linarith
    rw [min_eq_right h4, max_eq_left (by norm_num)]

/-- Witness for claim C5 at the concrete levels 0.5 and 0: the mapped
energy clamps to 4.0 at level 0.5 and is 0.8 at level 0. -/
theorem claim_C5_witness : energyOf 0.5 = 4.0 ∧ energyOf 0 = 0.8 :=
  ⟨(claim_C5_energy_mapping 0.5).2.2.2.2 (by norm_num),
   (claim_C5_energy_mapping 0).2.2.2.1⟩

/-- Claim C4: for band energies in [0,255], the extreme multiplier derived
from the mean of the three normalized band energies is exactly 1.0 when
the mean is at most 0.7, lies in [1.0, 2.5] when the mean exceeds 0.7, is
monotone non-decreasing in the mean, and equals exactly 2.5 when all three
band energies are 255. -/
theorem claim_C4_extreme_multiplier (bass mid treble : ℚ)
    (hb : 0 ≤ bass) (hb' : bass ≤ 255) (hm : 0 ≤ mid) (hm' : mid ≤ 255)
    (ht : 0 ≤ treble) (ht' : treble ≤ 255) :
    extremeMultiplier bass mid treble
        = extremeMultiplierOfMean ((bandAmount bass + bandAmount mid + bandAmount treble) / 3) ∧
    ((bandAmount bass + bandAmount mid + bandAmount treble) / 3 ≤ 0.7 →
      extremeMultiplier bass mid treble = 1.0) ∧
    (0.7 < (bandAmount bass + bandAmount mid + bandAmount treble) / 3 →
      1.0 ≤ extremeMultiplier bass mid treble ∧ extremeMultiplier bass mid treble ≤ 2.5) ∧
    (∀ m₁ m₂ : ℚ, m₁ ≤ m₂ → extremeMultiplierOfMean m₁ ≤ extremeMultiplierOfMean m₂) ∧
    extremeMultiplier 255 255 255 = 2.5 := by
  have hb1 : bandAmount bass ≤ 1 := by unfold bandAmount p5map; ring_nf; linarith
  have hm1 : bandAmount mid ≤ 1 := by unfold bandAmount p5map; ring_nf; linarith
  have ht1 : bandAmount treble ≤ 1 := by unfold bandAmount p5map; ring_nf; linarith
  refine ⟨rfl, ?_, ?_, ?_, ?_⟩
  · intro hmean
    unfold extremeMultiplier extremeMultiplierOfMean
    rw [if_neg (not_lt.mpr hmean)]
  · intro hmean
    unfold extremeMultiplier extremeMultiplierOfMean
    rw [if_pos hmean]
    constructor
    · unfold p5map; ring_nf; linarith
    · unfold bandAmount p5map
      unfold bandAmount p5map at hb1 hm1 ht1
      ring_nf
      ring_nf at hb1 hm1 ht1
      linarith
  · intro m₁ m₂ h
    unfold extremeMultiplierOfMean
    split_ifs with h₁ h₂
    · unfold p5map; ring_nf; linarith
    · linarith
    · unfold p5map; ring_nf; linarith
    · exact le_refl _
  · unfold extremeMultiplier extremeMultiplierOfMean bandAmount p5map
    norm_num

/-- Witness for claim C4 at the concrete input bass = mid = treble = 255:
the extreme multiplier is exactly 2.5. -/
theorem claim_C4_witness : extremeMultiplier 255 255 255 = 2.5 :=
  (claim_C4_extreme_multiplier 255 255 255 (by norm_num) (by norm_num) (by norm_num)
    (by norm_num) (by norm_num) (by norm_num)).2.2.2.2

/-- On shift values in [0,1] the README green target is non-negative. -/
theorem target3G_nonneg (s : ℚ) (h0 : 0 ≤ s) (h1 : s ≤ 1) : 0 ≤ target3G s := by
  unfold target3G
  split_ifs with ha hb
  · norm_num
  · unfold lerp p5map
    ring_nf
    linarith
  · unfold lerp p5map
    ring_nf
    linarith

/-- Claim C3 (amended): in both heuristic variants the drawn color is the
respective color shift of the base color, equal to the base color at
treble at most 0.15 and piecewise-linearly interpolated toward a warm
(full-red) target above. In the sketch.js variant there are two
sub-ranges whose target switches in a single abrupt step at colorShift
0.47 — target (255,140,50) up to treble 1099/2000 and (255,0,0) above.
In the README variant there are three sub-ranges whose target is
continuous: the pieces agree at both breakpoints (green 140 at shift
0.235 and 80 at shift 0.47; blue 50 and 10), so no abrupt single-step
jump occurs there. In both variants, for a base color with positive
green channel, the fully saturated warm color (255,0,0) is reached
exactly at treble 1. -/
theorem claim_C3_treble_color_shift (r g b treble : ℚ) :
    (∀ (env : Env) (p : Dot2) (energy ba ma t em : ℚ),
      ((drawDot2 env p energy ba ma treble t em).fillR,
       (drawDot2 env p energy ba ma treble t em).fillG,
       (drawDot2 env p energy ba ma treble t em).fillB)
        = adjustColor p.c.r p.c.g p.c.b treble) ∧
    (treble ≤ 0.15 → adjustColor r g b treble = (r, g, b)) ∧
    (0.15 < treble → treble ≤ 1099 / 2000 →
      adjustColor r g b treble =
        (lerp r 255 (constrain (p5map treble 0.15 1.0 0 1) 0 1),
         lerp g 140 (constrain (p5map treble 0.15 1.0 0 1) 0 1),
         lerp b 50 (constrain (p5map treble 0.15 1.0 0 1) 0 1))) ∧
    (1099 / 2000 < treble →
      adjustColor r g b treble =
        (lerp r 255 (constrain (p5map treble 0.15 1.0 0 1) 0 1),
         lerp g 0 (constrain (p5map treble 0.15 1.0 0 1) 0 1),
         lerp b 0 (constrain (p5map treble 0.15 1.0 0 1) 0 1))) ∧
    (0 < g → 0 ≤ treble → treble < 1 → 0 < (adjustColor r g b treble).2.1) ∧
    adjustColor r g b 1 = ((255 : ℚ), (0 : ℚ), (0 : ℚ)) ∧
    (∀ (env : Env) (p : Dot2) (energy ba ma t em : ℚ),
      ((drawDot3 env p energy ba ma treble t em).fillR,
       (drawDot3 env p energy ba ma treble t em).fillG,
       (drawDot3 env p energy ba ma treble t em).fillB)
        = adjustColor3 p.c.r p.c.g p.c.b treble) ∧
    (treble ≤ 0.15 → adjustColor3 r g b treble = (r, g, b)) ∧
    (0.15 < treble →
      adjustColor3 r g b treble =
        (lerp r 255 (colorShiftOf treble),
         lerp g (target3G (colorShiftOf treble)) (colorShiftOf treble),
         lerp b (target3B (colorShiftOf treble)) (colorShiftOf treble))) ∧
    (target3G 0.235 = 140 ∧ target3B 0.235 = 50 ∧
     target3G 0.47 = 80 ∧ target3B 0.47 = 10 ∧
     lerp 140 80 (p5map 0.47 0.235 0.47 0 1) = 80 ∧
     lerp 50 10 (p5map 0.47 0.235 0.47 0 1) = 10) ∧
    (0 < g → 0 ≤ treble → treble < 1 → 0 < (adjustColor3 r g b treble).2.1) ∧
    adjustColor3 r g b 1 = ((255 : ℚ), (0 : ℚ), (0 : ℚ)) := by
  refine ⟨?_, ?_, ?_, ?_, ?_, ?_, ?_, ?_, ?_, ?_, ?_, ?_⟩
  · intro env p energy ba ma t em
    obtain ⟨x, y, c, ct, dX, dY⟩ := p
    cases ct <;> rfl
  · intro h
    unfold adjustColor
    rw [if_neg (not_lt.mpr h)]
  · intro h1 h2
    have hv : p5map treble 0.15 1.0 0 1 ≤ 0.47 := by
      unfold p5map; ring_nf; linarith
    have hs : constrain (p5map treble 0.15 1.0 0 1) 0 1 ≤ 0.47 := by
      unfold constrain
      exact max_le (le_trans (min_le_left _ _) hv) (by norm_num)
    simp only [adjustColor]
    rw [if_pos h1]
    simp only [if_neg (not_lt.mpr hs)]
  · intro h1
    have hv : (0.47 : ℚ) < p5map treble 0.15 1.0 0 1 := by
      unfold p5map; ring_nf; linarith
    have hs : (0.47 : ℚ) < constrain (p5map treble 0.15 1.0 0 1) 0 1 := by
      unfold constrain
      exact lt_of_lt_of_le (lt_min hv (by norm_num)) (le_max_left _ _)
    simp only [adjustColor]
    rw [if_pos (by linarith : (0.15 : ℚ) < treble)]
    simp only [if_pos hs]
  · intro hg h0 h1
    simp only [adjustColor]
    split_ifs with ht hc
    · have hv1 : p5map treble 0.15 1.0 0 1 < 1 := by
        unfold p5map; ring_nf; linarith
      have hs1 : constrain (p5map treble 0.15 1.0 0 1) 0 1 < 1 := by
        unfold constrain
        exact max_lt (lt_of_le_of_lt (min_le_left _ _) hv1) (by norm_num)
      simp only [lerp]
      nlinarith [mul_pos hg (by linarith : (0 : ℚ) < 1 - constrain (p5map treble 0.15 1.0 0 1) 0 1)]
    · have hs0 : (0 : ℚ) ≤ constrain (p5map treble 0.15 1.0 0 1) 0 1 := le_max_right _ _
      have hs1 : constrain (p5map treble 0.15 1.0 0 1) 0 1 ≤ 0.47 := not_lt.mp hc
      simp only [lerp]
      nlinarith [mul_pos hg (by linarith : (0 : ℚ) < 1 - constrain (p5map treble 0.15 1.0 0 1) 0 1),
        mul_nonneg hs0 (by norm_num : (0 : ℚ) ≤ 140)]
    · exact hg
  · unfold adjustColor constrain p5map lerp
    norm_num
  · intro env p energy ba ma t em
    obtain ⟨x, y, c, ct, dX, dY⟩ := p
    cases ct <;> rfl
  · intro h
    unfold adjustColor3
    rw [if_neg (not_lt.mpr h)]
  · intro h
    simp only [adjustColor3]
    rw [if_pos h]
  · refine ⟨?_, ?_, ?_, ?_, ?_, ?_⟩ <;> norm_num [target3G, target3B, p5map, lerp]
  · intro hg h0 h1
    simp only [adjustColor3]
    split_ifs with ht
    · have hs0 : (0 : ℚ) ≤ colorShiftOf treble := le_max_right _ _
      have hsA : colorShiftOf treble ≤ 1 := by
        unfold colorShiftOf constrain
        exact max_le (min_le_right _ _) (by norm_num)
      have hv1 : p5map treble 0.15 1.0 0 1 < 1 := by
        unfold p5map; ring_nf; linarith
      have hs1 : colorShiftOf treble < 1 := by
        unfold colorShiftOf constrain
        exact max_lt (lt_of_le_of_lt (min_le_left _ _) hv1) (by norm_num)
      have htg : 0 ≤ target3G (colorShiftOf treble) := target3G_nonneg _ hs0 hsA
      simp only [lerp]
      nlinarith [mul_pos hg (by linarith : (0 : ℚ) < 1 - colorShiftOf treble),
        mul_nonneg htg hs0]
    · exact hg
  · unfold adjustColor3 colorShiftOf target3G target3B constrain p5map lerp
    norm_num

/-- Counterexample for claim C3 as stated: in the sketch.js heuristic
variant the interpolation target does make an abrupt single-step jump.
For base color (40,40,40), a treble change of less than 0.01 (from
1099/2000 = 0.5495 to 279/500 = 0.558) makes the drawn green channel
drop by more than 66 (from 87 to 20.8), because that variant's target
green switches from 140 to 0 at shift 0.47. -/
theorem claim_C3_counterexample :
    (adjustColor 40 40 40 (1099 / 2000)).2.1 = 87 ∧
    (adjustColor 40 40 40 (279 / 500)).2.1 = 104 / 5 ∧
    (279 / 500 : ℚ) - 1099 / 2000 < 1 / 100 ∧
    (87 : ℚ) - 104 / 5 > 66 := by
  refine ⟨?_, ?_, by norm_num, by norm_num⟩
  · unfold adjustColor constrain p5map lerp
    norm_num
  · unfold adjustColor constrain p5map lerp
    norm_num

/-- Witness for claim C3 at concrete inputs: in both heuristic variants
base color (40,40,40) is unchanged at treble 0.1, and keeps a positive
green channel at treble 0.5. -/
theorem claim_C3_witness :
    adjustColor 40 40 40 0.1 = (40, 40, 40) ∧ 0 < (adjustColor 40 40 40 0.5).2.1 ∧
    adjustColor3 40 40 40 0.1 = (40, 40, 40) ∧ 0 < (adjustColor3 40 40 40 0.5).2.1 :=
  ⟨(claim_C3_treble_color_shift 40 40 40 0.1).2.1 (by norm_num),
   (claim_C3_treble_color_shift 40 40 40 0.5).2.2.2.2.1 (by norm_num) (by norm_num)
     (by norm_num),
   (claim_C3_treble_color_shift 40 40 40 0.1).2.2.2.2.2.2.2.1 (by norm_num),
   (claim_C3_treble_color_shift 40 40 40 0.5).2.2.2.2.2.2.2.2.2.2.1 (by norm_num)
     (by norm_num) (by norm_num)⟩

/-- A concrete environment for evaluating claims on explicit inputs:
trigonometry returns 1/2 everywhere, the random source returns 0. -/
def sampleEnv : Env :=
  { sinf := fun _ => 1 / 2, cosf := fun _ => 1 / 2, atan2f := fun _ _ => 0,
    rnd := fun _ _ => 0, width := 300, height := 300, guyW := 100, guyH := 100 }

/-- A concrete mask-variant dot in the figure ('guy') region. -/
def sampleGuyDot : Dot1 :=
  { x := 10, y := 20, c := ⟨40, 40, 40, 255⟩, area := .guy }

/-- A concrete heuristic-variant dot with the 'dark' region label. -/
def sampleDarkDot : Dot2 :=
  { x := 10, y := 20, c := ⟨40, 40, 40, 255⟩, colorType := .dark,
    currentDispersionX := 0, currentDispersionY := 0 }

/-- Claim C2 (amended): in the mask-driven variant a figure ('guy') dot's
displaced position is its base position plus a low-band (bass) distortion
term plus a separate high-band (treble) pulse term on both axes, with no
mid-band term (position independent of the mid amount); likewise in the
README heuristic variant a 'dark' dot gets the low-band distortion term
plus the high-band pulse term (both scaled by the extreme multiplier)
plus the smoothed dispersion, with no mid-band ripple term. Only in the
sketch.js heuristic variant does the 'dark' branch lack the high-band
pulse term: there the displaced position is the base position plus the
low-band distortion term plus the smoothed random dispersion, independent
of both the mid and the treble amounts (at fixed extreme multiplier). -/
theorem claim_C2_dark_figure_displacement (env : Env) (p1 : Dot1) (p2 p3 : Dot2)
    (energy ba ma ta t em : ℚ) :
    (p1.area = .guy →
      (drawDot1 env p1 energy ba ma ta t).finalX
        = p1.x + env.sinf (p1.y * 0.04 + t * 2) * ba * 12 + env.sinf (t * 3) * ta * 8 ∧
      (drawDot1 env p1 energy ba ma ta t).finalY
        = p1.y + env.cosf (p1.x * 0.04 + t * 2) * ba * 12 + env.cosf (t * 3) * ta * 8 ∧
      (∀ ma' : ℚ,
        (drawDot1 env p1 energy ba ma' ta t).finalX
          = (drawDot1 env p1 energy ba ma ta t).finalX ∧
        (drawDot1 env p1 energy ba ma' ta t).finalY
          = (drawDot1 env p1 energy ba ma ta t).finalY)) ∧
    (p2.colorType = .dark →
      (drawDot2 env p2 energy ba ma ta t em).finalX
        = p2.x + env.sinf (p2.y * 0.04 + t * 2) * ba * 15
          + (drawDot2 env p2 energy ba ma ta t em).newDX ∧
      (drawDot2 env p2 energy ba ma ta t em).finalY
        = p2.y + env.cosf (p2.x * 0.04 + t * 2) * ba * 15
          + (drawDot2 env p2 energy ba ma ta t em).newDY ∧
      (∀ ma' ta' : ℚ,
        (drawDot2 env p2 energy ba ma' ta' t em).finalX
          = (drawDot2 env p2 energy ba ma ta t em).finalX ∧
        (drawDot2 env p2 energy ba ma' ta' t em).finalY
          = (drawDot2 env p2 energy ba ma ta t em).finalY)) ∧
    (p3.colorType = .dark →
      (drawDot3 env p3 energy ba ma ta t em).finalX
        = p3.x + env.sinf (p3.y * 0.04 + t * 2) * ba * 15 * em
          + env.sinf (t * 3) * ta * 10 * em
          + (drawDot3 env p3 energy ba ma ta t em).newDX ∧
      (drawDot3 env p3 energy ba ma ta t em).finalY
        = p3.y + env.cosf (p3.x * 0.04 + t * 2) * ba * 15 * em
          + env.cosf (t * 3) * ta * 10 * em
          + (drawDot3 env p3 energy ba ma ta t em).newDY ∧
      (∀ ma' : ℚ,
        (drawDot3 env p3 energy ba ma' ta t em).finalX
          = (drawDot3 env p3 energy ba ma ta t em).finalX ∧
        (drawDot3 env p3 energy ba ma' ta t em).finalY
          = (drawDot3 env p3 energy ba ma ta t em).finalY)) := by
  refine ⟨?_, ?_, ?_⟩
  · intro h
    obtain ⟨x, y, c, area⟩ := p1
    cases h
    exact ⟨rfl, rfl, fun ma' => ⟨rfl, rfl⟩⟩
  · intro h
    obtain ⟨x, y, c, ct, dX, dY⟩ := p2
    cases h
    exact ⟨rfl, rfl, fun ma' ta' => ⟨rfl, rfl⟩⟩
  · intro h
    obtain ⟨x, y, c, ct, dX, dY⟩ := p3
    cases h
    exact ⟨rfl, rfl, fun ma' => ⟨rfl, rfl⟩⟩

/-- Counterexample for claim C2 as stated: in the sketch.js heuristic
variant a 'dark' dot receives no high-band pulse term. At a concrete dark
dot, raising the treble amount from 0 to 1 (all else fixed) leaves both
displaced coordinates unchanged, although the pulse term the claim
requires, sin(timeOffset * 3) * treble * 8, would equal 4 there. -/
theorem claim_C2_counterexample :
    (drawDot2 sampleEnv sampleDarkDot 1 (1 / 2) 0 1 1 1).finalX
      = (drawDot2 sampleEnv sampleDarkDot 1 (1 / 2) 0 0 1 1).finalX ∧
    (drawDot2 sampleEnv sampleDarkDot 1 (1 / 2) 0 1 1 1).finalY
      = (drawDot2 sampleEnv sampleDarkDot 1 (1 / 2) 0 0 1 1).finalY ∧
    sampleEnv.sinf (1 * 3) * 1 * 8 = 4 := by
  refine ⟨rfl, rfl, ?_⟩
  norm_num [sampleEnv]

/-- Witness for claim C2 at concrete inputs: the decompositions of the
figure-dot and the two heuristic dark-dot positions, instantiated at
sample dots. -/
theorem claim_C2_witness :
    (drawDot1 sampleEnv sampleGuyDot 1 (1 / 2) 0 1 1).finalX
      = sampleGuyDot.x + sampleEnv.sinf (sampleGuyDot.y * 0.04 + 1 * 2) * (1 / 2) * 12
        + sampleEnv.sinf (1 * 3) * 1 * 8 ∧
    (drawDot2 sampleEnv sampleDarkDot 1 (1 / 2) 0 1 1 1).finalX
      = sampleDarkDot.x + sampleEnv.sinf (sampleDarkDot.y * 0.04 + 1 * 2) * (1 / 2) * 15
        + (drawDot2 sampleEnv sampleDarkDot 1 (1 / 2) 0 1 1 1).newDX ∧
    (drawDot3 sampleEnv sampleDarkDot 1 (1 / 2) 0 1 1 1).finalX
      = sampleDarkDot.x + sampleEnv.sinf (sampleDarkDot.y * 0.04 + 1 * 2) * (1 / 2) * 15 * 1
        + sampleEnv.sinf (1 * 3) * 1 * 10 * 1
        + (drawDot3 sampleEnv sampleDarkDot 1 (1 / 2) 0 1 1 1).newDX :=
  ⟨((claim_C2_dark_figure_displacement sampleEnv sampleGuyDot sampleDarkDot sampleDarkDot
      1 (1 / 2) 0 1 1 1).1 rfl).1,
   ((claim_C2_dark_figure_displacement sampleEnv sampleGuyDot sampleDarkDot sampleDarkDot
      1 (1 / 2) 0 1 1 1).2.1 rfl).1,
   ((claim_C2_dark_figure_displacement sampleEnv sampleGuyDot sampleDarkDot sampleDarkDot
      1 (1 / 2) 0 1 1 1).2.2 rfl).1⟩

/-- A concrete idle state of the mask-driven sketch. -/
def idleState1 : State1 :=
  { audioStarted := false, timeOffset := 0, allDots := [sampleGuyDot], songPlaying := false }

/-- A concrete idle state of the heuristic sketch. -/
def idleState2 : State2 :=
  { audioStarted := false, timeOffset := 0, allDots := [sampleDarkDot],
    guyDots := [sampleDarkDot], songPlaying := false, songVolume := 0 }

/-- A concrete audio frame reading. -/
def sampleAudio : AudioIn := { level := 1 / 10, bass := 100, mid := 50, treble := 200 }

/-- A concrete idle (intro-screen) state of the README sketch, with the
bouncing face at the canvas center moving right and down. -/
def introState3 : State3 :=
  { audioStarted := false, timeOffset := 0, allDots := [sampleDarkDot],
    guyDots := [sampleDarkDot], currentVolume := 0, songPlaying := false,
    songVolume := 0, face := ⟨150, 150, 2, 1.5⟩ }

/-- Claim C1 (amended): while audioStarted is false, a frame tick of draw
issues no analyzer call, mutates no field point and does not advance the
time accumulator, in all three variants. In the two sketch.js variants
the state is entirely unchanged and a repeated tick (any environment, any
audio reading) produces the identical static prompt. In the README
variant the idle tick mutates exactly the intro-screen bounce state (the
face position and velocity, via introStep) — dots, timeOffset, volume and
the Active flag are untouched — and it renders the prompt at the moving
face position, so the prompt is not static there. -/
theorem claim_C1_idle_idempotent (env env' : Env) (audio audio' : AudioIn)
    (faceImgW faceImgH : ℚ) (s : State1) (s2 : State2) (s3 : State3)
    (h1 : s.audioStarted = false) (h2 : s2.audioStarted = false)
    (h3 : s3.audioStarted = false) :
    (draw1 env audio s).state = s ∧
    (draw1 env audio s).audioCalls = 0 ∧
    (draw1 env audio s).render = .prompt "Click to start the sound" ∧
    draw1 env' audio' (draw1 env audio s).state = draw1 env audio s ∧
    (draw2 env audio s2).state = s2 ∧
    (draw2 env audio s2).audioCalls = 0 ∧
    (draw2 env audio s2).render = .prompt "Click to start the experience" ∧
    draw2 env' audio' (draw2 env audio s2).state = draw2 env audio s2 ∧
    (draw3 env faceImgW faceImgH audio s3).audioCalls = 0 ∧
    (draw3 env faceImgW faceImgH audio s3).state
      = { s3 with face := introStep env.width env.height (faceImgW * 0.5) (faceImgH * 0.5) s3.face } ∧
    (draw3 env faceImgW faceImgH audio s3).state.timeOffset = s3.timeOffset ∧
    (draw3 env faceImgW faceImgH audio s3).state.allDots = s3.allDots ∧
    (draw3 env faceImgW faceImgH audio s3).state.guyDots = s3.guyDots ∧
    (draw3 env faceImgW faceImgH audio s3).state.currentVolume = s3.currentVolume ∧
    (draw3 env faceImgW faceImgH audio s3).state.audioStarted = false ∧
    (draw3 env faceImgW faceImgH audio s3).render
      = .intro (introStep env.width env.height (faceImgW * 0.5) (faceImgH * 0.5) s3.face).fx
          (introStep env.width env.height (faceImgW * 0.5) (faceImgH * 0.5) s3.face).fy
          (faceImgW * 0.5) (faceImgH * 0.5)
          (introStep env.width env.height (faceImgW * 0.5) (faceImgH * 0.5) s3.face).fx
          ((introStep env.width env.height (faceImgW * 0.5) (faceImgH * 0.5) s3.face).fy
            + (faceImgH * 0.5) / 2 + 30)
          "click here" := by
  have k1 : ∀ (e : Env) (a : AudioIn),
      draw1 e a s = ⟨s, 0, .prompt "Click to start the sound"⟩ := fun e a => by
    unfold draw1; rw [if_pos h1]
  have k2 : ∀ (e : Env) (a : AudioIn),
      draw2 e a s2 = ⟨s2, 0, .prompt "Click to start the experience"⟩ := fun e a => by
    unfold draw2; rw [if_pos h2]
  have k3 : draw3 env faceImgW faceImgH audio s3
      = ⟨{ s3 with face := introStep env.width env.height (faceImgW * 0.5) (faceImgH * 0.5) s3.face },
         0,
         .intro (introStep env.width env.height (faceImgW * 0.5) (faceImgH * 0.5) s3.face).fx
           (introStep env.width env.height (faceImgW * 0.5) (faceImgH * 0.5) s3.face).fy
           (faceImgW * 0.5) (faceImgH * 0.5)
           (introStep env.width env.height (faceImgW * 0.5) (faceImgH * 0.5) s3.face).fx
           ((introStep env.width env.height (faceImgW * 0.5) (faceImgH * 0.5) s3.face).fy
             + (faceImgH * 0.5) / 2 + 30)
           "click here"⟩ := by
    unfold draw3; rw [if_pos h3]
  refine ⟨?_, ?_, ?_, ?_, ?_, ?_, ?_, ?_, ?_, ?_, ?_, ?_, ?_, ?_, ?_, ?_⟩ <;>
    simp [k1, k2, k3, h3]

/-- Counterexample for claim C1 as stated: in the README variant repeated
idle ticks do not produce an unchanged static prompt. At a concrete intro
state the tick moves the bouncing face (fx goes from 150 to 152), and the
render of the second tick differs from the render of the first (the
prompt follows the face). -/
theorem claim_C1_counterexample :
    introState3.audioStarted = false ∧
    introState3.face.fx = 150 ∧
    (draw3 sampleEnv 100 100 sampleAudio introState3).state.face.fx = 152 ∧
    (draw3 sampleEnv 100 100 sampleAudio
        (draw3 sampleEnv 100 100 sampleAudio introState3).state).render
      ≠ (draw3 sampleEnv 100 100 sampleAudio introState3).render := by
  refine ⟨rfl, rfl, ?_, ?_⟩
  · norm_num [draw3, introStep, introState3, sampleEnv, constrain]
  · norm_num [draw3, introStep, introState3, sampleEnv, constrain, Render3.intro.injEq]

/-- Witness for claim C1 at concrete idle states of all three variants:
no analyzer call anywhere, full state preservation in the sketch.js
variants, and dot/time preservation in the README variant. -/
theorem claim_C1_witness :
    (draw1 sampleEnv sampleAudio idleState1).state = idleState1 ∧
    (draw1 sampleEnv sampleAudio idleState1).audioCalls = 0 ∧
    (draw2 sampleEnv sampleAudio idleState2).audioCalls = 0 ∧
    (draw3 sampleEnv 100 100 sampleAudio introState3).audioCalls = 0 ∧
    (draw3 sampleEnv 100 100 sampleAudio introState3).state.timeOffset
      = introState3.timeOffset :=
  ⟨(claim_C1_idle_idempotent sampleEnv sampleEnv sampleAudio sampleAudio 100 100
      idleState1 idleState2 introState3 rfl rfl rfl).1,
   (claim_C1_idle_idempotent sampleEnv sampleEnv sampleAudio sampleAudio 100 100
      idleState1 idleState2 introState3 rfl rfl rfl).2.1,
   (claim_C1_idle_idempotent sampleEnv sampleEnv sampleAudio sampleAudio 100 100
      idleState1 idleState2 introState3 rfl rfl rfl).2.2.2.2.2.1,
   (claim_C1_idle_idempotent sampleEnv sampleEnv sampleAudio sampleAudio 100 100
      idleState1 idleState2 introState3 rfl rfl rfl).2.2.2.2.2.2.2.2.1,
   (claim_C1_idle_idempotent sampleEnv sampleEnv sampleAudio sampleAudio 100 100
      idleState1 idleState2 introState3 rfl rfl rfl).2.2.2.2.2.2.2.2.2.2.1⟩

/-- Claim C10: in the mask-driven variant the Idle-to-Active transition is
irreversible: from any state with audioStarted true, any finite sequence
of draw frames and mouse presses leaves audioStarted true. -/
theorem claim_C10_active_irreversible (ops : List Op1) (s : State1)
    (h : s.audioStarted = true) : (applyOps1 ops s).audioStarted = true := by
  induction ops generalizing s with
  | nil => exact h
  | cons op rest ih =>
      have hstep : (applyOp1 op s).audioStarted = true := by
        cases op with
        | frame env audio => simp [applyOp1, draw1, h]
        | mouse => simp [applyOp1, mousePressed1, h]
      exact ih _ hstep

/-- Witness for claim C10: after a mouse press followed by a frame and
another mouse press from a started concrete state, audioStarted is still
true. -/
theorem claim_C10_witness :
    (applyOps1 [.mouse, .frame sampleEnv sampleAudio, .mouse]
      (mousePressed1 idleState1)).audioStarted = true :=
  claim_C10_active_irreversible [.mouse, .frame sampleEnv sampleAudio, .mouse]
    (mousePressed1 idleState1) rfl

/-- Claim C8: the time accumulator is monotone. On every active frame it
is advanced by exactly the base step 0.05 plus 0.1 times the normalized
bass amount, a strictly positive increment for non-negative bass input;
no operation of either variant ever decreases or resets it. -/
theorem claim_C8_time_accumulator (env : Env) (audio : AudioIn) (s : State1) (s2 : State2)
    (key : Char) (hb : 0 ≤ audio.bass) :
    (s.audioStarted = true →
      (draw1 env audio s).state.timeOffset = timeStep s.timeOffset (bandAmount audio.bass) ∧
      s.timeOffset < (draw1 env audio s).state.timeOffset) ∧
    s.timeOffset ≤ (draw1 env audio s).state.timeOffset ∧
    (mousePressed1 s).timeOffset = s.timeOffset ∧
    (s2.audioStarted = true →
      (draw2 env audio s2).state.timeOffset = timeStep s2.timeOffset (bandAmount audio.bass) ∧
      s2.timeOffset < (draw2 env audio s2).state.timeOffset) ∧
    s2.timeOffset ≤ (draw2 env audio s2).state.timeOffset ∧
    (mousePressed2 s2).timeOffset = s2.timeOffset ∧
    (keyPressed2 key s2).timeOffset = s2.timeOffset := by
  have hba : 0 ≤ bandAmount audio.bass := by
    unfold bandAmount p5map; ring_nf; linarith
  have hstep : ∀ t : ℚ, t < timeStep t (bandAmount audio.bass) := by
    intro t; unfold timeStep; linarith
  refine ⟨?_, ?_, ?_, ?_, ?_, ?_, ?_⟩
  · intro h
    refine ⟨by simp [draw1, h], ?_⟩
    simp only [draw1, h]
    simpa using hstep s.timeOffset
  · cases hA : s.audioStarted
    · simp [draw1, hA]
    · simp only [draw1, hA]
      simpa using le_of_lt (hstep s.timeOffset)
  · unfold mousePressed1; split_ifs <;> rfl
  · intro h
    refine ⟨by simp [draw2, h], ?_⟩
    simp only [draw2, h]
    simpa using hstep s2.timeOffset
  · cases hA : s2.audioStarted
    · simp [draw2, hA]
    · simp only [draw2, hA]
      simpa using le_of_lt (hstep s2.timeOffset)
  · unfold mousePressed2; split_ifs <;> rfl
  · unfold keyPressed2; split_ifs <;> rfl

/-- Witness for claim C8 at a concrete active state and audio reading:
the frame strictly increases timeOffset. -/
theorem claim_C8_witness :
    (mousePressed1 idleState1).timeOffset
      < (draw1 sampleEnv sampleAudio (mousePressed1 idleState1)).state.timeOffset :=
  ((claim_C8_time_accumulator sampleEnv sampleAudio (mousePressed1 idleState1)
    idleState2 ' ' (by norm_num [sampleAudio])).1 rfl).2

/-- Claim C9: one drawGuyOverlay pass updates only the two dispersion
fields of each stored guy dot — stored x, y, color and region label are
unchanged; the scale/rotation transform is applied to a temporary copy
(which inherits the stored dispersion), and the dispersion written back is
drawDot's update computed on that copy. -/
theorem claim_C9_overlay_mutates_only_dispersion (env : Env)
    (energy ba ma ta t : ℚ) (p : Dot2) (dots : List Dot2) :
    (overlayDotStep env energy ba ma ta t p).x = p.x ∧
    (overlayDotStep env energy ba ma ta t p).y = p.y ∧
    (overlayDotStep env energy ba ma ta t p).c = p.c ∧
    (overlayDotStep env energy ba ma ta t p).colorType = p.colorType ∧
    (overlayTransformDot env (overlayScaleAmount env energy ba ma ta t)
        (overlayRotation env ba t) p).currentDispersionX = p.currentDispersionX ∧
    (overlayTransformDot env (overlayScaleAmount env energy ba ma ta t)
        (overlayRotation env ba t) p).currentDispersionY = p.currentDispersionY ∧
    (overlayDotStep env energy ba ma ta t p).currentDispersionX
      = (drawDot2 env
          (overlayTransformDot env (overlayScaleAmount env energy ba ma ta t)
            (overlayRotation env ba t) p)
          energy ba ma ta t (overlayMultiplier ta)).newDX ∧
    (overlayDotStep env energy ba ma ta t p).currentDispersionY
      = (drawDot2 env
          (overlayTransformDot env (overlayScaleAmount env energy ba ma ta t)
            (overlayRotation env ba t) p)
          energy ba ma ta t (overlayMultiplier ta)).newDY ∧
    (drawGuyOverlay env energy ba ma ta t dots).1
      = dots.map (overlayDotStep env energy ba ma ta t) :=
  ⟨rfl, rfl, rfl, rfl, rfl, rfl, rfl, rfl, rfl⟩

/-- All-black mask images. -/
def sampleMasks : Masks :=
  { guyMask := fun _ _ => ⟨0, 0, 0, 255⟩, bridgeMask := fun _ _ => ⟨0, 0, 0, 255⟩,
    skyMask := fun _ _ => ⟨0, 0, 0, 255⟩, waterMask := fun _ _ => ⟨0, 0, 0, 255⟩,
    hillsMask := fun _ _ => ⟨0, 0, 0, 255⟩ }

/-- A uniform gray base image. -/
def sampleImg : ℤ → ℤ → Color := fun _ _ => ⟨40, 40, 40, 255⟩

/-- Claim C7: both region classifiers are total (the result is always one
label of the fixed enumeration, with a defined default when no threshold
rule matches: neutral for the color heuristic, hills for the mask lookup)
and deterministic (identical inputs give identical labels). -/
theorem claim_C7_classifier_total_deterministic (c c' : Color) (M M' : Masks) (x x' y y' : ℤ) :
    (getColorType c = .warm ∨ getColorType c = .blue ∨ getColorType c = .dark ∨
      getColorType c = .earth ∨ getColorType c = .bright ∨ getColorType c = .neutral) ∧
    (¬(c.r > 150 ∧ c.g > 80 ∧ c.g < 180 ∧ c.b < 120) →
      ¬(c.b > c.g ∧ c.b > c.r) →
      ¬((c.r + c.g + c.b) / 3 < 80) →
      ¬(c.r > 80 ∧ c.g > 60 ∧ c.b > 40 ∧ c.r > c.b) →
      ¬((c.r + c.g + c.b) / 3 > 180) →
      getColorType c = .neutral) ∧
    (c = c' → getColorType c = getColorType c') ∧
    (getAreaType M x y = .guy ∨ getAreaType M x y = .bridge ∨ getAreaType M x y = .sky ∨
      getAreaType M x y = .water ∨ getAreaType M x y = .hills) ∧
    (¬(maskBright M.guyMask x y > 100) → ¬(maskBright M.bridgeMask x y > 20) →
      ¬(maskBright M.skyMask x y > 120) → ¬(maskBright M.waterMask x y > 80) →
      ¬(maskBright M.hillsMask x y > 100) →
      getAreaType M x y = .hills) ∧
    (M = M' → x = x' → y = y' → getAreaType M x y = getAreaType M' x' y') := by
  refine ⟨?_, ?_, ?_, ?_, ?_, ?_⟩
  · simp only [getColorType]
    split_ifs <;> simp
  · intro h1 h2 h3 h4 h5
    simp only [getColorType]
    rw [if_neg h1, if_neg h2, if_neg h3, if_neg h4, if_neg h5]
  · intro h; rw [h]
  · simp only [getAreaType]
    split_ifs <;> simp
  · intro h1 h2 h3 h4 h5
    simp only [getAreaType]
    rw [if_neg h1, if_neg h2, if_neg h3, if_neg h4, if_neg h5]
  · intro hM hx hy; rw [hM, hx, hy]

/-- Witness for claim C7 at concrete inputs: the gray color (100,100,100)
matches no heuristic rule and falls to neutral; all-black masks match no
threshold and fall to hills. -/
theorem claim_C7_witness :
    getColorType ⟨100, 100, 100, 255⟩ = .neutral ∧
    getAreaType sampleMasks 0 0 = .hills :=
  ⟨(claim_C7_classifier_total_deterministic ⟨100, 100, 100, 255⟩ ⟨100, 100, 100, 255⟩
      sampleMasks sampleMasks 0 0 0 0).2.1
    (by norm_num) (by norm_num) (by norm_num) (by norm_num) (by norm_num),
   (claim_C7_classifier_total_deterministic ⟨100, 100, 100, 255⟩ ⟨100, 100, 100, 255⟩
      sampleMasks sampleMasks 0 0 0 0).2.2.2.2.1
    (by norm_num [maskBright, sampleMasks]) (by norm_num [maskBright, sampleMasks])
    (by norm_num [maskBright, sampleMasks]) (by norm_num [maskBright, sampleMasks])
    (by norm_num [maskBright, sampleMasks])⟩

/-- The loop `for (let x = 0; x < w; x += s)` starting at x visits exactly
ceil((w - x)/s) values. -/
theorem gridFrom_length (w s x : ℕ) (hs : 0 < s) :
    (gridFrom w s x).length = (w - x + s - 1) / s := by
  induction x using gridFrom.induct w s with
  | case1 x h ih =>
      rw [gridFrom, dif_pos h, List.length_cons, ih]
      obtain ⟨-, hxw⟩ := h
      rcases le_or_lt s (w - x) with hd | hd
      · have h1 : w - (x + s) + s - 1 = w - x - 1 := by omega
        have h2 : w - x + s - 1 = (w - x - 1) + s := by omega
        rw [h1, h2, Nat.add_div_right _ hs]
      · have h1 : w - (x + s) = 0 := by omega
        have h2 : (w - x + s - 1) / s = 1 := by
          apply Nat.div_eq_of_lt_le <;> omega
        rw [h1, h2]
        have h3 : (0 + s - 1) / s = 0 := Nat.div_eq_of_lt (by omega)
        rw [h3]
  | case2 x h =>
      rw [gridFrom, dif_neg h]
      have hxw : w ≤ x := by omega
      have h1 : w - x = 0 := by omega
      rw [List.length_nil, h1]
      exact (Nat.div_eq_of_lt (by omega)).symm

/-- A flatMap whose pieces all have length k has length l.length * k. -/
theorem length_flatMap_const {α β : Type} (l : List α) (f : α → List β) (k : ℕ)
    (h : ∀ a ∈ l, (f a).length = k) : (l.flatMap f).length = l.length * k := by
  induction l with
  | nil => simp
  | cons a tl ih =>
      simp only [List.flatMap_cons, List.length_append, List.length_cons]
      rw [h a (List.mem_cons_self a tl), ih fun b hb => h b (List.mem_cons_of_mem a hb)]
      ring

/-- Claim C6: for every image extent W x H and positive spacing s, the
point field builder emits exactly ceil(W/s) * ceil(H/s) dots, hence at
most that many. -/
theorem claim_C6_field_size_bound (env : Env) (M : Masks) (img : ℤ → ℤ → Color)
    (W H s : ℕ) (hs : 0 < s) :
    (buildDots env M img W H s).length = ((W + s - 1) / s) * ((H + s - 1) / s) ∧
    (buildDots env M img W H s).length ≤ ((W + s - 1) / s) * ((H + s - 1) / s) := by
  have key : (buildDots env M img W H s).length
      = ((W + s - 1) / s) * ((H + s - 1) / s) := by
    unfold buildDots
    rw [length_flatMap_const _ _ ((H + s - 1) / s) fun a _ => by
      rw [List.length_map]
      simpa using gridFrom_length H s 0 hs]
    have := gridFrom_length W s 0 hs
    simp only [Nat.sub_zero] at this
    rw [this]
  exact ⟨key, le_of_eq key⟩

/-- Witness for claim C6: with spacing 3 over a 300 x 200 image the
builder produces at most 100 * 67 = 6700 dots. -/
theorem claim_C6_witness :
    0 < 3 ∧ (buildDots sampleEnv sampleMasks sampleImg 300 200 3).length ≤ 6700 := by
  refine ⟨by norm_num, ?_⟩
  have h := (claim_C6_field_size_bound sampleEnv sampleMasks sampleImg 300 200 3
    (by norm_num)).2
  norm_num at h
  exact h

end Scream
